import Mathlib

/-!
Shallow embedding of the widget-composition fragment of the `raui` repository:
the `app` composite (demos/hello-world/src/ui/components/app.rs) and the four
decorated-container components `grid_paper`, `nav_grid_paper`, `vertical_paper`,
`nav_vertical_paper` (raui-material/src/component/containers/{grid,vertical}_paper.rs).

The components are written against `raui_core` (`widget!`, `unpack_named_slots!`,
`Props`, `FlexBoxItemLayout`, `VerticalBoxProps`, `NavJumpLooped`, `remap_props`),
whose sources are not part of the given fragment; those pieces are modelled from
the specification, as marked on each definition.  Scalar values (`f32` in the
source) are modelled as rationals: the fragment only constructs and compares
them, it performs no arithmetic on them.
-/

namespace Raui

/-- Scalar layout values; the source only stores literals (0.0, 16.0) and never
computes with them, so rationals model them exactly. -/
abbrev Scalar := Rat

/-- Modelled from the spec: a margin rectangle, one of the defaulted fields of
the flex-item layout property (its exact field set is in `raui_core`, outside
the fragment). -/
structure Rect where
  left : Scalar := 0
  right : Scalar := 0
  top : Scalar := 0
  bottom : Scalar := 0
deriving DecidableEq

/-- Modelled from the spec: the typed property `FlexBoxItemLayout` of
`raui_core`, carrying a child's layout-participation fields (`grow`, `shrink`,
and further defaulted fields such as `fill`, `align`, `margin`, `basis`).
Field defaults model Rust's `Default::default()` for the type. -/
structure FlexBoxItemLayout where
  basis : Option Scalar := none
  grow : Scalar := 1
  shrink : Scalar := 1
  fill : Scalar := 1
  align : Scalar := 0
  margin : Rect := {}
deriving DecidableEq

/-- Modelled from the spec: the typed property `VerticalBoxProps` of
`raui_core`, carrying the self properties of a vertical layout box (spacing
value, plus defaulted fields). -/
structure VerticalBoxProps where
  separation : Scalar := 0
  reversed : Bool := false
deriving DecidableEq

/-- Modelled from the spec: `Props` is a mapping from type-tagged keys to typed
values, built by structural composition (`with`) and defaulting.  The typed
entries the fragment touches are explicit fields; every other type-tagged entry
is kept opaquely in `rest` (tag, payload).  `with` on one typed key replaces
that entry and leaves all others intact. -/
structure Props where
  flexItem : Option FlexBoxItemLayout := none
  verticalBox : Option VerticalBoxProps := none
  navJumpLooped : Bool := false
  rest : List (Nat × Nat) := []
deriving DecidableEq

/-- Modelled from the spec: `props.with(FlexBoxItemLayout {..})` — replace the
flex-item entry, keep all other entries. -/
def Props.withFlexItem (p : Props) (l : FlexBoxItemLayout) : Props :=
  { p with flexItem := some l }

/-- Modelled from the spec: `props.with(NavJumpLooped)` — attach the
wrap-focus navigation marker, keep all other entries. -/
def Props.withNavJumpLooped (p : Props) : Props :=
  { p with navJumpLooped := true }

/-- Modelled from the spec: `Props::new(VerticalBoxProps {..})` — a fresh
properties value holding exactly the given vertical-box entry. -/
def Props.newVerticalBox (v : VerticalBoxProps) : Props :=
  { verticalBox := some v }

/-- Modelled from the spec: the output `Node` — a tagged tree element: kind
(which widget interprets the node, e.g. "paper", "grid_box"), key, optional
identity reference (a shared handle, modelled as a numeric id), properties and
ordered children. -/
inductive WidgetNode where
  | node (kind : String) (key : String) (idref : Option Nat) (props : Props)
      (children : List WidgetNode)

/-- Kind tag of a node. -/
def WidgetNode.kind : WidgetNode → String
  | .node k _ _ _ _ => k

/-- Key of a node. -/
def WidgetNode.key : WidgetNode → String
  | .node _ k _ _ _ => k

/-- Identity reference of a node. -/
def WidgetNode.idref : WidgetNode → Option Nat
  | .node _ _ i _ _ => i

/-- Properties of a node. -/
def WidgetNode.props : WidgetNode → Props
  | .node _ _ _ p _ => p

/-- Ordered children of a node. -/
def WidgetNode.children : WidgetNode → List WidgetNode
  | .node _ _ _ _ c => c

/-- Modelled from the spec: `remap_props` applies a pure transform to a node's
properties, producing a new node; nothing else changes. -/
def WidgetNode.remap_props (n : WidgetNode) (f : Props → Props) : WidgetNode :=
  match n with
  | .node k key i p c => .node k key i (f p) c

/-- The per-invocation `WidgetContext`: optional identity reference, display
key, inherited properties, and the child slots (named, or positional/listed).
Mirrors the fields destructured by the source components. -/
structure WidgetContext where
  idref : Option Nat := none
  key : String := ""
  props : Props := {}
  named_slots : List (String × WidgetNode) := []
  listed_slots : List WidgetNode := []

/-- Modelled from the spec: composition-time failure of the slot forwarder —
a declared named slot absent from the supplied context, naming the absent
slot. -/
inductive SlotError where
  | MissingSlotError (name : String)
deriving DecidableEq

/-- Modelled from the spec: `unpack_named_slots!` for one name — look the name
up in the context's named-slot set; a missing name is a fatal
`MissingSlotError` naming the absent slot. -/
def unpack_named_slot (ctx : WidgetContext) (name : String) :
    Except SlotError WidgetNode :=
  match ctx.named_slots.lookup name with
  | some n => Except.ok n
  | none => Except.error (SlotError.MissingSlotError name)

/-- The flex-item layout value the `app` composite installs on its title slot:
`FlexBoxItemLayout { grow: 0.0, shrink: 0.0, ..Default::default() }`. -/
def rigidItemLayout : FlexBoxItemLayout :=
  { grow := 0, shrink := 0 }

/-- The `app` composite (demos/hello-world/src/ui/components/app.rs): unpack
the named slots `title` and `content`, remap the title's props to the rigid
flex-item layout, build self props `VerticalBoxProps { separation: 16.0, .. }`
with the `NavJumpLooped` marker, and emit a `nav_vertical_box` node keyed by
the context's key with children `[title, content]`. -/
def app (ctx : WidgetContext) : Except SlotError WidgetNode := do
  let title ← unpack_named_slot ctx "title"
  let content ← unpack_named_slot ctx "content"
  let title := title.remap_props (fun p => p.withFlexItem rigidItemLayout)
  let props := (Props.newVerticalBox { separation := 16 }).withNavJumpLooped
  pure (WidgetNode.node "nav_vertical_box" ctx.key none props [title, content])

/-- `grid_paper`: a `paper` decoration node carrying the context's key, idref
and props, whose sole child is a `grid_box` node with fixed key "grid", the
same props, and the forwarded listed slots as children. -/
def grid_paper (ctx : WidgetContext) : WidgetNode :=
  WidgetNode.node "paper" ctx.key ctx.idref ctx.props
    [WidgetNode.node "grid_box" "grid" none ctx.props ctx.listed_slots]

/-- `nav_grid_paper`: as `grid_paper`, with the navigable `nav_grid_box` inner
kind. -/
def nav_grid_paper (ctx : WidgetContext) : WidgetNode :=
  WidgetNode.node "paper" ctx.key ctx.idref ctx.props
    [WidgetNode.node "nav_grid_box" "grid" none ctx.props ctx.listed_slots]

/-- `vertical_paper`: a `paper` decoration node carrying the context's key,
idref and props, whose sole child is a `vertical_box` node with fixed key
"vertical", the same props, and the forwarded listed slots as children. -/
def vertical_paper (ctx : WidgetContext) : WidgetNode :=
  WidgetNode.node "paper" ctx.key ctx.idref ctx.props
    [WidgetNode.node "vertical_box" "vertical" none ctx.props ctx.listed_slots]

/-- `nav_vertical_paper`: as `vertical_paper`, with the navigable
`nav_vertical_box` inner kind. -/
def nav_vertical_paper (ctx : WidgetContext) : WidgetNode :=
  WidgetNode.node "paper" ctx.key ctx.idref ctx.props
    [WidgetNode.node "nav_vertical_box" "vertical" none ctx.props ctx.listed_slots]

/-- The inner node of a decorated container: the first child of the emitted
tree (a placeholder node when there is none). -/
def paperInner (n : WidgetNode) : WidgetNode :=
  n.children.headD (WidgetNode.node "" "" none {} [])

/-- Spec-side transform for the refinement claim: replace the kind tag of every
child of a tree's root (here: the single inner layout node), keeping every
other part of the tree unchanged. -/
def replaceInnerKind (n : WidgetNode) (k : String) : WidgetNode :=
  match n with
  | .node k0 key0 id0 p0 cs =>
      WidgetNode.node k0 key0 id0 p0 (cs.map fun c => match c with
        | .node _ ik iid ip ics => WidgetNode.node k ik iid ip ics)

/-- Sample non-default flex-item layout: every field differs from the type's
default. -/
def sampleLayout : FlexBoxItemLayout :=
  { basis := some 1
    grow := 7
    shrink := 3
    fill := 5
    align := 2
    margin := { left := 4 } }

/-- Sample title node with a fully non-default flex-item layout entry, used to
evaluate the theorems on concrete inputs. -/
def sampleTitle : WidgetNode :=
  WidgetNode.node "title_comp" "t" none { flexItem := some sampleLayout } []

/-- Sample content node. -/
def sampleContent : WidgetNode :=
  WidgetNode.node "content_comp" "c" none {} []

/-- Sample context supplying both named slots of the `app` composite. -/
def sampleCtx : WidgetContext :=
  { key := "app", named_slots := [("title", sampleTitle), ("content", sampleContent)] }

/-- Sample context for the decorated-container family: identity reference,
key, a non-trivial properties value and two listed children. -/
def samplePaperCtx : WidgetContext :=
  { idref := some 7
    key := "k"
    props := { navJumpLooped := true, rest := [(5, 9)] }
    listed_slots := [sampleContent, sampleTitle] }

/-- Sample context missing the `title` named slot. -/
def ctxNoTitle : WidgetContext :=
  { key := "app", named_slots := [("content", sampleContent)] }

/-- Sample context missing the `content` named slot. -/
def ctxNoContent : WidgetContext :=
  { key := "app", named_slots := [("title", sampleTitle)] }

/-- Sample context with an empty listed slot. -/
def emptyCtx : WidgetContext :=
  { key := "e" }

/-- C1: for every context, each of the four decorated-container components
returns a tree whose outer node has kind "paper" (the decoration) with exactly
one child; that child's kind is the selected layout discipline (grid box vs
vertical box, navigable or not), and its children are exactly the context's
listed slot, in order. -/
theorem C1_decorated_container_shape (ctx : WidgetContext) :
    ((grid_paper ctx).kind = "paper" ∧
      (grid_paper ctx).children = [paperInner (grid_paper ctx)] ∧
      (paperInner (grid_paper ctx)).kind = "grid_box" ∧
      (paperInner (grid_paper ctx)).children = ctx.listed_slots) ∧
    ((nav_grid_paper ctx).kind = "paper" ∧
      (nav_grid_paper ctx).children = [paperInner (nav_grid_paper ctx)] ∧
      (paperInner (nav_grid_paper ctx)).kind = "nav_grid_box" ∧
      (paperInner (nav_grid_paper ctx)).children = ctx.listed_slots) ∧
    ((vertical_paper ctx).kind = "paper" ∧
      (vertical_paper ctx).children = [paperInner (vertical_paper ctx)] ∧
      (paperInner (vertical_paper ctx)).kind = "vertical_box" ∧
      (paperInner (vertical_paper ctx)).children = ctx.listed_slots) ∧
    ((nav_vertical_paper ctx).kind = "paper" ∧
      (nav_vertical_paper ctx).children = [paperInner (nav_vertical_paper ctx)] ∧
      (paperInner (nav_vertical_paper ctx)).kind = "nav_vertical_box" ∧
      (paperInner (nav_vertical_paper ctx)).children = ctx.listed_slots) := by
  simp [grid_paper, nav_grid_paper, vertical_paper, nav_vertical_paper,
    paperInner, WidgetNode.kind, WidgetNode.children]

/-- C5: for every context and each of the four decorated-container variants,
the context's identity reference and key sit on the outer decoration node; the
inner layout node carries the fixed sub-key ("grid" or "vertical") and no
identity reference. -/
theorem C5_identity_on_outer (ctx : WidgetContext) :
    ((grid_paper ctx).key = ctx.key ∧ (grid_paper ctx).idref = ctx.idref ∧
      (paperInner (grid_paper ctx)).key = "grid" ∧
      (paperInner (grid_paper ctx)).idref = none) ∧
    ((nav_grid_paper ctx).key = ctx.key ∧ (nav_grid_paper ctx).idref = ctx.idref ∧
      (paperInner (nav_grid_paper ctx)).key = "grid" ∧
      (paperInner (nav_grid_paper ctx)).idref = none) ∧
    ((vertical_paper ctx).key = ctx.key ∧ (vertical_paper ctx).idref = ctx.idref ∧
      (paperInner (vertical_paper ctx)).key = "vertical" ∧
      (paperInner (vertical_paper ctx)).idref = none) ∧
    ((nav_vertical_paper ctx).key = ctx.key ∧ (nav_vertical_paper ctx).idref = ctx.idref ∧
      (paperInner (nav_vertical_paper ctx)).key = "vertical" ∧
      (paperInner (nav_vertical_paper ctx)).idref = none) := by
  simp [grid_paper, nav_grid_paper, vertical_paper, nav_vertical_paper,
    paperInner, WidgetNode.key, WidgetNode.idref, WidgetNode.children]

/-- C6: a context whose listed slot is empty makes each of the four variants
succeed (they are total functions) with an inner layout node that has zero
children. -/
theorem C6_empty_listed_slot (ctx : WidgetContext) (h : ctx.listed_slots = []) :
    (paperInner (grid_paper ctx)).children = [] ∧
    (paperInner (nav_grid_paper ctx)).children = [] ∧
    (paperInner (vertical_paper ctx)).children = [] ∧
    (paperInner (nav_vertical_paper ctx)).children = [] := by
  simp [grid_paper, nav_grid_paper, vertical_paper, nav_vertical_paper,
    paperInner, WidgetNode.children, h]

/-- Witness for C6 at the concrete empty-listed-slot context. -/
theorem C6_empty_listed_slot_witness :
    (paperInner (grid_paper emptyCtx)).children = [] ∧
    (paperInner (nav_grid_paper emptyCtx)).children = [] ∧
    (paperInner (vertical_paper emptyCtx)).children = [] ∧
    (paperInner (nav_vertical_paper emptyCtx)).children = [] :=
  C6_empty_listed_slot emptyCtx rfl

/-- C7: for every context and each of the four variants, both the outer
decoration node and the inner layout node carry exactly the context's
properties value, unmodified. -/
theorem C7_props_passed_through (ctx : WidgetContext) :
    ((grid_paper ctx).props = ctx.props ∧
      (paperInner (grid_paper ctx)).props = ctx.props) ∧
    ((nav_grid_paper ctx).props = ctx.props ∧
      (paperInner (nav_grid_paper ctx)).props = ctx.props) ∧
    ((vertical_paper ctx).props = ctx.props ∧
      (paperInner (vertical_paper ctx)).props = ctx.props) ∧
    ((nav_vertical_paper ctx).props = ctx.props ∧
      (paperInner (nav_vertical_paper ctx)).props = ctx.props) := by
  simp [grid_paper, nav_grid_paper, vertical_paper, nav_vertical_paper,
    paperInner, WidgetNode.props, WidgetNode.children]

/-- C8: each navigable variant emits exactly the tree of its non-navigable
counterpart with only the inner layout node's kind changed to the navigable
kind; outer node and the inner node's key, properties and children coincide. -/
theorem C8_nav_variant_refines (ctx : WidgetContext) :
    nav_grid_paper ctx = replaceInnerKind (grid_paper ctx) "nav_grid_box" ∧
    nav_vertical_paper ctx = replaceInnerKind (vertical_paper ctx) "nav_vertical_box" ∧
    (paperInner (grid_paper ctx)).kind = "grid_box" ∧
    (paperInner (nav_grid_paper ctx)).kind = "nav_grid_box" ∧
    (paperInner (vertical_paper ctx)).kind = "vertical_box" ∧
    (paperInner (nav_vertical_paper ctx)).kind = "nav_vertical_box" := by
  simp [grid_paper, nav_grid_paper, vertical_paper, nav_vertical_paper,
    replaceInnerKind, paperInner, WidgetNode.kind, WidgetNode.children]

/-- Helper: on a context supplying both named slots, `app` succeeds with the
fully explicit output tree. -/
theorem app_eq_of_slots (ctx : WidgetContext) (H B : WidgetNode)
    (hT : ctx.named_slots.lookup "title" = some H)
    (hC : ctx.named_slots.lookup "content" = some B) :
    app ctx = Except.ok (WidgetNode.node "nav_vertical_box" ctx.key none
      ((Props.newVerticalBox { separation := 16 }).withNavJumpLooped)
      [H.remap_props fun p => p.withFlexItem rigidItemLayout, B]) := by
  unfold app unpack_named_slot
  rw [hT, hC]
  rfl

/-- Helper: remapping a node's props to install the rigid flex-item layout
leaves the other property entries alone and sets `flexItem` to exactly
`rigidItemLayout`. -/
theorem remap_rigid_props (H : WidgetNode) :
    (H.remap_props fun p => p.withFlexItem rigidItemLayout).props
        = H.props.withFlexItem rigidItemLayout ∧
    (H.remap_props fun p => p.withFlexItem rigidItemLayout).props.flexItem
        = some rigidItemLayout := by
  cases H with
  | node k e i p c =>
      simp [WidgetNode.remap_props, WidgetNode.props, Props.withFlexItem]

/-- C2: whenever the `app` composite is given both named slots, the emitted
title (heading) child carries a flex-item layout entry with grow = 0 and
shrink = 0, whatever grow/shrink the input title carried. -/
theorem C2_title_rigid (ctx : WidgetContext) (H B : WidgetNode)
    (hT : ctx.named_slots.lookup "title" = some H)
    (hC : ctx.named_slots.lookup "content" = some B) :
    ∃ n t, app ctx = Except.ok n ∧ n.children.head? = some t ∧
      ∃ l, t.props.flexItem = some l ∧ l.grow = 0 ∧ l.shrink = 0 := by
  refine ⟨_, _, app_eq_of_slots ctx H B hT hC, rfl, rigidItemLayout, ?_, rfl, rfl⟩
  exact (remap_rigid_props H).2

/-- Witness for C2 at the concrete sample context, whose title carries
grow = 7 and shrink = 3. -/
theorem C2_title_rigid_witness :
    ∃ n t, app sampleCtx = Except.ok n ∧ n.children.head? = some t ∧
      ∃ l, t.props.flexItem = some l ∧ l.grow = 0 ∧ l.shrink = 0 :=
  C2_title_rigid sampleCtx sampleTitle sampleContent rfl rfl

/-- C3: a context lacking a required named slot makes `app` fail with a
`MissingSlotError` naming the absent slot ("title" when the title slot is
missing; "content" when the title is present and the content slot is
missing); no tree is produced. -/
theorem C3_missing_slot (ctx : WidgetContext) :
    (ctx.named_slots.lookup "title" = none →
        app ctx = Except.error (SlotError.MissingSlotError "title")) ∧
    (∀ H, ctx.named_slots.lookup "title" = some H →
        ctx.named_slots.lookup "content" = none →
        app ctx = Except.error (SlotError.MissingSlotError "content")) := by
  constructor
  · intro h
    unfold app unpack_named_slot
    rw [h]
    rfl
  · intro H hT hC
    unfold app unpack_named_slot
    rw [hT, hC]
    rfl

/-- Witness for C3 at two concrete contexts, one missing each slot. -/
theorem C3_missing_slot_witness :
    app ctxNoTitle = Except.error (SlotError.MissingSlotError "title") ∧
    app ctxNoContent = Except.error (SlotError.MissingSlotError "content") :=
  ⟨(C3_missing_slot ctxNoTitle).1 rfl,
    (C3_missing_slot ctxNoContent).2 sampleTitle rfl rfl⟩

/-- C4: on a context supplying title H and content B, `app` emits a
`nav_vertical_box` node keyed by the context's key whose props hold
`VerticalBoxProps` with separation 16 and the `NavJumpLooped` marker, and
whose children are, in order, the remapped title (grow = 0, shrink = 0) then
the content. -/
theorem C4_app_tree (ctx : WidgetContext) (H B : WidgetNode)
    (hT : ctx.named_slots.lookup "title" = some H)
    (hC : ctx.named_slots.lookup "content" = some B) :
    app ctx = Except.ok (WidgetNode.node "nav_vertical_box" ctx.key none
      ((Props.newVerticalBox { separation := 16 }).withNavJumpLooped)
      [H.remap_props fun p => p.withFlexItem rigidItemLayout, B]) ∧
    ((Props.newVerticalBox { separation := 16 }).withNavJumpLooped).verticalBox
        = some { separation := 16 } ∧
    ((Props.newVerticalBox { separation := 16 }).withNavJumpLooped).navJumpLooped
        = true ∧
    rigidItemLayout.grow = 0 ∧ rigidItemLayout.shrink = 0 :=
  ⟨app_eq_of_slots ctx H B hT hC, rfl, rfl, rfl, rfl⟩

/-- Witness for C4 at the concrete sample context. -/
theorem C4_app_tree_witness :
    app sampleCtx = Except.ok (WidgetNode.node "nav_vertical_box" sampleCtx.key none
      ((Props.newVerticalBox { separation := 16 }).withNavJumpLooped)
      [sampleTitle.remap_props fun p => p.withFlexItem rigidItemLayout,
        sampleContent]) ∧
    ((Props.newVerticalBox { separation := 16 }).withNavJumpLooped).verticalBox
        = some { separation := 16 } ∧
    ((Props.newVerticalBox { separation := 16 }).withNavJumpLooped).navJumpLooped
        = true ∧
    rigidItemLayout.grow = 0 ∧ rigidItemLayout.shrink = 0 :=
  C4_app_tree sampleCtx sampleTitle sampleContent rfl rfl

/-- C10: the remap applied to the title slot replaces the title's whole
flex-item layout entry with the fresh value `rigidItemLayout`, whose grow and
shrink are 0 and whose every other field (basis, fill, align, margin) is the
type's default; the title's own flex-item values are discarded while its other
property entries are kept. -/
theorem C10_remap_discards_layout (ctx : WidgetContext) (H B : WidgetNode)
    (hT : ctx.named_slots.lookup "title" = some H)
    (hC : ctx.named_slots.lookup "content" = some B) :
    ∃ n t, app ctx = Except.ok n ∧ n.children.head? = some t ∧
      t.props = H.props.withFlexItem rigidItemLayout ∧
      t.props.flexItem = some rigidItemLayout ∧
      rigidItemLayout = { ({} : FlexBoxItemLayout) with grow := 0, shrink := 0 } := by
  refine ⟨_, _, app_eq_of_slots ctx H B hT hC, rfl, ?_, ?_, rfl⟩
  · exact (remap_rigid_props H).1
  · exact (remap_rigid_props H).2

/-- Witness for C10 at the concrete sample context, whose title carries a
flex-item layout with every field non-default. -/
theorem C10_remap_discards_layout_witness :
    ∃ n t, app sampleCtx = Except.ok n ∧ n.children.head? = some t ∧
      t.props = sampleTitle.props.withFlexItem rigidItemLayout ∧
      t.props.flexItem = some rigidItemLayout ∧
      rigidItemLayout = { ({} : FlexBoxItemLayout) with grow := 0, shrink := 0 } :=
  C10_remap_discards_layout sampleCtx sampleTitle sampleContent rfl rfl

/-- C9: the five component functions are deterministic: equal contexts give
structurally identical output trees. -/
theorem C9_deterministic (c1 c2 : WidgetContext) (h : c1 = c2) :
    app c1 = app c2 ∧ grid_paper c1 = grid_paper c2 ∧
    nav_grid_paper c1 = nav_grid_paper c2 ∧
    vertical_paper c1 = vertical_paper c2 ∧
    nav_vertical_paper c1 = nav_vertical_paper c2 := by
  subst h
  exact ⟨rfl, rfl, rfl, rfl, rfl⟩

/-- Witness for C9 at a concrete context. -/
theorem C9_deterministic_witness :
    app sampleCtx = app sampleCtx ∧ grid_paper sampleCtx = grid_paper sampleCtx ∧
    nav_grid_paper sampleCtx = nav_grid_paper sampleCtx ∧
    vertical_paper sampleCtx = vertical_paper sampleCtx ∧
    nav_vertical_paper sampleCtx = nav_vertical_paper sampleCtx :=
  C9_deterministic sampleCtx sampleCtx rfl

end Raui
